import Mathlib

/-!
Verification of the session lifecycle manager of `src/pair.js` (with constants
from `src/config.js`).

The development shallowly embeds the state and the operations of the session
manager: MongoDB `Session` documents, the in-memory maps `activeSockets`,
`socketCreationTime` and `otpStore`, the pairing-code retry loop of
`EmpirePair`, the `connection.update` handlers (the `open` handler in
`EmpirePair` and the `close` handler in `setupAutoRestart`), and the HTTP
route handlers for `/` and `/verify-otp`.  Network sends, timer waits and the
hand-off to `EmpirePair` are recorded as explicit events in traces, so that
ordering claims can be stated about them.
-/

namespace Minibot

/-! ### Association lists

JavaScript `Map` objects and the MongoDB `sessions` collection (keyed
uniquely by `number`) are both embedded as association lists with string
keys.  `insertA` is upsert (`Map.set` / `findOneAndUpdate` with upsert),
`eraseA` is `Map.delete` / `deleteOne`. -/

def lookupA {α : Type} : List (String × α) → String → Option α
  | [], _ => none
  | (k, v) :: rest, key => if k = key then some v else lookupA rest key

def insertA {α : Type} : List (String × α) → String → α → List (String × α)
  | [], key, v => [(key, v)]
  | (k, w) :: rest, key, v =>
    if k = key then (key, v) :: rest else (k, w) :: insertA rest key v

def eraseA {α : Type} (l : List (String × α)) (key : String) : List (String × α) :=
  l.filter (fun kv => kv.1 != key)

def keysA {α : Type} (l : List (String × α)) : List String :=
  l.map Prod.fst

/-! ### Phone-number sanitization

Every mutation site in `pair.js` normalizes the supplied number with
`number.replace(/[^0-9]/g, '')` (e.g. pair.js:3435, 3409-3410, 3425-3426,
3585, 726, 731-736): strip every character that is not a decimal digit. -/

def sanitizeNumber (s : String) : String :=
  String.mk (s.data.filter Char.isDigit)

def isDigitsOnly (s : String) : Bool :=
  s.data.all Char.isDigit

/-! ### Configuration values and constants (src/config.js) -/

/-- `MAX_RETRIES` from config.js:22 with its default: `parseInt(process.env.MAX_RETRIES || '3', 10)`. -/
def MAX_RETRIES : Nat := 3

/-- `OTP_EXPIRY` from config.js:38 with its default: 300000 ms. -/
def OTP_EXPIRY : Nat := 300000

/-- A JSON value stored in the `config` field of a `Session` document.
`loadUserConfig` (pair.js:3362) tests this value for JavaScript truthiness
(`session && session.config ? session.config : { ...config }`), so the
embedding keeps exactly that structure: a configuration *document* (a JSON
object, always truthy in JavaScript, its contents opaque key-value pairs),
or a falsy JSON value (`null`, `false`, ...). -/
inductive ConfigVal where
  | falsy
  | cdoc (fields : List (String × String))
deriving DecidableEq, Repr

def ConfigVal.truthy : ConfigVal → Bool
  | .falsy => false
  | .cdoc _ => true

/-- The process-wide default configuration `{ ...config }` returned by
`loadUserConfig` when no per-number configuration exists (pair.js:3362,
3365).  Its entries come from the defaults of src/config.js; the claims
treat it as an opaque document, so a representative sample of its string
fields suffices. -/
def defaultConfigDoc : ConfigVal :=
  .cdoc [("AUTO_VIEW_STATUS", "false"), ("AUTO_LIKE_STATUS", "false"),
         ("AUTO_RECORDING", "false"), ("MAX_RETRIES", "3"),
         ("OTP_EXPIRY", "300000"), ("OWNER_NUMBER", "263786831091")]

/-! ### State -/

/-- A MongoDB `Session` document (schema at pair.js:58-65): unique `number`
key, required opaque credential blob (embedded as an opaque tag), `config`,
and timestamps.  `creds` is `Option` because `findOneAndUpdate` upserts from
`updateUserConfig` (pair.js:3371-3375) create documents without running the
`required` validator. -/
structure SessionRecord where
  creds : Option Nat
  config : ConfigVal
  lastActive : Nat
  updatedAt : Nat
deriving DecidableEq, Repr

/-- An entry of `otpStore` (pair.js:3699): `{ otp, expiry, newConfig }`. -/
structure OtpRecord where
  otp : String
  expiry : Nat
  newConfig : ConfigVal
deriving DecidableEq, Repr

/-- The mutable state of the session manager: the MongoDB `sessions`
collection and the three process-local maps of pair.js:74-78.  Connection
handles are embedded as opaque numeric socket ids. -/
structure SysState where
  sessions : List (String × SessionRecord)
  activeSockets : List (String × Nat)
  socketCreationTime : List (String × Nat)
  otpStore : List (String × OtpRecord)
deriving DecidableEq, Repr

def SysState.init : SysState := ⟨[], [], [], []⟩

/-! ### Credential store operations (pair.js:3359-3397) -/

/-- `loadUserConfig(number)` (pair.js:3359-3367): the per-number `config`
field when the document exists and the field is truthy, else a copy of the
process-wide default configuration. -/
def loadUserConfig (sessions : List (String × SessionRecord)) (number : String) : ConfigVal :=
  match lookupA sessions number with
  | some s => if s.config.truthy then s.config else defaultConfigDoc
  | none => defaultConfigDoc

/-- `updateUserConfig(number, newConfig)` (pair.js:3369-3381):
`findOneAndUpdate({number}, {config, updatedAt}, {upsert:true})` — update
`config` and `updatedAt` of the existing document, or insert a fresh
document with that config. -/
def updateUserConfig (sessions : List (String × SessionRecord)) (number : String)
    (newConfig : ConfigVal) (now : Nat) : List (String × SessionRecord) :=
  match lookupA sessions number with
  | some s => insertA sessions number { s with config := newConfig, updatedAt := now }
  | none => insertA sessions number
      { creds := none, config := newConfig, lastActive := now, updatedAt := now }

/-- `deleteSessionFromStorage(number)` (pair.js:3383-3397): delete the
MongoDB document for the sanitized number (the session directory removal has
no counterpart in this state). -/
def deleteSessionFromStorage (sessions : List (String × SessionRecord)) (number : String) :
    List (String × SessionRecord) :=
  eraseA sessions (sanitizeNumber number)

/-! ### Observable effects of the connection.update handlers -/

/-- Effects emitted by the `close` handler installed by `setupAutoRestart`
(pair.js:3399-3432), in the order the handler performs them. -/
inductive Effect where
  | deleteSessionStorage : String → Effect
  | removeActiveSocket : String → Effect
  | removeCreationTime : String → Effect
  | notifyUser : String → Effect
  | waitMs : Nat → Effect
  | invokePair : String → Effect
deriving DecidableEq, Repr

/-- The `connection.update` close handler installed by
`setupAutoRestart(socket, number)` (pair.js:3399-3432).  On
`statusCode === 401`: `deleteSessionFromStorage`, delete both registry
entries, best-effort notify the user — and no re-pair.  On any other close
reason: `await delay(10000)`, then delete both registry entries, then
`await EmpirePair(number, mockRes)`.  Returns the new state and the ordered
trace of effects. -/
def onConnectionClose (st : SysState) (number : String) (statusCode : Option Nat) :
    SysState × List Effect :=
  let n := sanitizeNumber number
  if statusCode = some 401 then
    ({ st with
        sessions := deleteSessionFromStorage st.sessions number,
        activeSockets := eraseA st.activeSockets n,
        socketCreationTime := eraseA st.socketCreationTime n },
     [Effect.deleteSessionStorage n, Effect.removeActiveSocket n,
      Effect.removeCreationTime n, Effect.notifyUser n])
  else
    ({ st with
        activeSockets := eraseA st.activeSockets n,
        socketCreationTime := eraseA st.socketCreationTime n },
     [Effect.waitMs 10000, Effect.removeActiveSocket n,
      Effect.removeCreationTime n, Effect.invokePair number])

/-- Steps of the `connection.update` open handler registered in `EmpirePair`
(pair.js:3510-3567), in source order. -/
inductive OpenEvent where
  | settleDelay
  | joinGroupStep
  | newsletterStep
  | loadConfigStep
  | registrySet
  | welcomeSend
  | adminSend
  | numbersAppend
  | pm2Restart
deriving DecidableEq, Repr

/-- The `connection === 'open'` handler (pair.js:3510-3567): settle delay,
`joinGroup`, newsletter follow loop (failures swallowed, pair.js:3526-3533),
config load (its own try/catch, pair.js:3535-3539),
`activeSockets.set(sanitizedNumber, socket)` (pair.js:3541), the welcome
send to the user (pair.js:3543-3550), `sendAdminConnectMessage`
(pair.js:3552) and the known-numbers append.  The welcome send is not
individually guarded: if it throws, control jumps to the outer catch
(pair.js:3562-3565), which only logs and requests a pm2 restart — it does
not touch the registry.  `sendAdminConnectMessage` catches per-admin send
failures internally (pair.js:160-169) and never throws, so `adminSendFails`
changes nothing downstream. -/
def onConnectionOpen (st : SysState) (sanitizedNumber : String) (sock : Nat)
    (welcomeSendFails _adminSendFails : Bool) : SysState × List OpenEvent :=
  let st1 := { st with activeSockets := insertA st.activeSockets sanitizedNumber sock }
  if welcomeSendFails then
    (st1, [OpenEvent.settleDelay, OpenEvent.joinGroupStep, OpenEvent.newsletterStep,
           OpenEvent.loadConfigStep, OpenEvent.registrySet, OpenEvent.welcomeSend,
           OpenEvent.pm2Restart])
  else
    (st1, [OpenEvent.settleDelay, OpenEvent.joinGroupStep, OpenEvent.newsletterStep,
           OpenEvent.loadConfigStep, OpenEvent.registrySet, OpenEvent.welcomeSend,
           OpenEvent.adminSend, OpenEvent.numbersAppend])

/-! ### The pairing-code request loop and the initial HTTP response
(pair.js:3470-3487, 3568-3576) -/

/-- The retry loop of `EmpirePair` (pair.js:3470-3483):
`let retries = MAX_RETRIES; while (retries > 0) { try { code = await
socket.requestPairingCode(...); break } catch { retries--; ... } }`.
`outcome i` is the result of the i-th call to `requestPairingCode` counted
from 0 (`none` = the call threw).  Returns the code obtained (if any) and
the total number of calls performed. -/
def requestPairingCodeLoop (outcome : Nat → Option String) :
    Nat → Nat → Option String × Nat
  | 0, attempts => (none, attempts)
  | retries + 1, attempts =>
    match outcome attempts with
    | some code => (some code, attempts + 1)
    | none => requestPairingCodeLoop outcome retries (attempts + 1)

/-- What `EmpirePair` sends on the bound HTTP response. -/
inductive HttpSent where
  | sentBody (code : Option String)
  | sent503
  | nothingSent
deriving DecidableEq, Repr

/-- The response behaviour of `EmpirePair` on the fresh-registration path
(pair.js:3470-3487): when the socket is unregistered, run the retry loop and
then `if (!res.headersSent) res.send({ code })` — the loop's errors are all
caught inside it, so the outer catch (pair.js:3568-3576), the only place a
503 is sent, is not reached on retry exhaustion. -/
def empirePairInitialResponse (registered : Bool) (outcome : Nat → Option String)
    (headersSent : Bool) : HttpSent :=
  if registered then HttpSent.nothingSent
  else
    let code := (requestPairingCodeLoop outcome MAX_RETRIES 0).1
    if headersSent then HttpSent.nothingSent else HttpSent.sentBody code

/-! ### HTTP route handlers -/

/-- Result of `router.get('/')` (pair.js:3579-3593). -/
inductive PairRouteResult where
  | missingNumber
  | alreadyConnected
  | handedToEmpirePair
deriving DecidableEq, Repr

/-- `router.get('/')` (pair.js:3579-3593): reject a falsy `number` query
parameter; answer `{status:'already_connected'}` and return when
`activeSockets.has(number.replace(/[^0-9]/g, ''))`; otherwise hand off to
`EmpirePair` (recorded as an `invokePair` effect).  The state component and
effect trace record everything the handler itself does. -/
def pairRoute (st : SysState) (number : Option String) :
    PairRouteResult × SysState × List Effect :=
  match number with
  | none => (PairRouteResult.missingNumber, st, [])
  | some n =>
    if n = "" then (PairRouteResult.missingNumber, st, [])
    else if (lookupA st.activeSockets (sanitizeNumber n)).isSome then
      (PairRouteResult.alreadyConnected, st, [])
    else
      (PairRouteResult.handedToEmpirePair, st, [Effect.invokePair n])

/-- Result of `router.get('/verify-otp')` (pair.js:3710-3746). -/
inductive VerifyOtpResult where
  | missingParams
  | noRequestFound
  | expired
  | invalidOtp
  | success
deriving DecidableEq, Repr

/-- `router.get('/verify-otp')` (pair.js:3710-3746): reject falsy params;
look up `otpStore` under the sanitized number; absent → "No OTP request
found"; `Date.now() >= expiry` → delete the record and answer "OTP has
expired"; stored code ≠ supplied code → answer "Invalid OTP" (the record is
left in place); otherwise commit the pending config via `updateUserConfig`,
delete the record and answer success. -/
def verifyOtpRoute (st : SysState) (now : Nat) (number otp : Option String) :
    VerifyOtpResult × SysState :=
  match number, otp with
  | some n, some o =>
    if n = "" ∨ o = "" then (VerifyOtpResult.missingParams, st)
    else
      let sn := sanitizeNumber n
      match lookupA st.otpStore sn with
      | none => (VerifyOtpResult.noRequestFound, st)
      | some stored =>
        if stored.expiry ≤ now then
          (VerifyOtpResult.expired, { st with otpStore := eraseA st.otpStore sn })
        else if stored.otp ≠ o then
          (VerifyOtpResult.invalidOtp, st)
        else
          (VerifyOtpResult.success,
           { st with
              sessions := updateUserConfig st.sessions sn stored.newConfig now,
              otpStore := eraseA st.otpStore sn })
  | _, _ => (VerifyOtpResult.missingParams, st)

/-! ### Registry-mutating operations (for the digits-only key invariant)

Every code site that inserts into or deletes from `activeSockets` /
`socketCreationTime`, as an operation on `SysState`. -/

inductive RegOp where
  /-- `socketCreationTime.set(sanitizedNumber, Date.now())` (pair.js:3461). -/
  | empirePairStart : String → Nat → RegOp
  /-- the `connection === 'open'` handler, which performs
  `activeSockets.set(sanitizedNumber, socket)` (pair.js:3541). -/
  | connectionOpenOp : String → Nat → RegOp
  /-- the close handler of `setupAutoRestart` (pair.js:3399-3432). -/
  | connectionCloseOp : String → Option Nat → RegOp
  /-- the catch of `EmpirePair`: `socketCreationTime.delete(sanitizedNumber)` (pair.js:3570). -/
  | empirePairCatch : String → RegOp
  /-- the `deleteme` chat command (pair.js:725-743). -/
  | deleteMeCommand : String → RegOp
  /-- the `process.on('exit')` hook (pair.js:3780-3787): delete every entry. -/
  | processExit : RegOp
deriving DecidableEq, Repr

def applyRegOp (st : SysState) : RegOp → SysState
  | .empirePairStart number t =>
    { st with socketCreationTime := insertA st.socketCreationTime (sanitizeNumber number) t }
  | .connectionOpenOp number sock =>
    (onConnectionOpen st (sanitizeNumber number) sock false false).1
  | .connectionCloseOp number code => (onConnectionClose st number code).1
  | .empirePairCatch number =>
    { st with socketCreationTime := eraseA st.socketCreationTime (sanitizeNumber number) }
  | .deleteMeCommand number =>
    let n := sanitizeNumber number
    let st1 := { st with sessions := deleteSessionFromStorage st.sessions number }
    if (lookupA st1.activeSockets n).isSome then
      { st1 with
          activeSockets := eraseA st1.activeSockets n,
          socketCreationTime := eraseA st1.socketCreationTime n }
    else st1
  | .processExit => { st with activeSockets := [], socketCreationTime := [] }

def applyRegOps (st : SysState) (ops : List RegOp) : SysState :=
  ops.foldl applyRegOp st

/-! ### OTP generation (pair.js:100-102) -/

/-- `generateOTP()` (pair.js:100-102):
`Math.floor(100000 + Math.random() * 900000).toString()`, with the random
draw `r ∈ [0,1)` made explicit. -/
def generateOTP (r : ℚ) : String :=
  Nat.repr (Int.toNat ⌊(100000 : ℚ) + r * 900000⌋)

/-! ### Invariant predicates -/

/-- Every key of the association list is a digits-only string. -/
def digitKeys {α : Type} (l : List (String × α)) : Prop :=
  ∀ k ∈ keysA l, isDigitsOnly k = true

/-- Both in-memory registry maps hold digits-only keys. -/
def regInvariant (st : SysState) : Prop :=
  digitKeys st.activeSockets ∧ digitKeys st.socketCreationTime

/-! ## Lemmas about the association-list primitives -/

theorem lookupA_insertA_self {α : Type} (l : List (String × α)) (k : String) (v : α) :
    lookupA (insertA l k v) k = some v := by
  induction l with
  | nil => simp [insertA, lookupA]
  | cons kv rest ih =>
    obtain ⟨k', w⟩ := kv
    by_cases h : k' = k
    · simp [insertA, h, lookupA]
    · simp [insertA, h, lookupA, ih]

theorem lookupA_eraseA_self {α : Type} (l : List (String × α)) (k : String) :
    lookupA (eraseA l k) k = none := by
  induction l with
  | nil => simp [eraseA, lookupA]
  | cons kv rest ih =>
    obtain ⟨k', w⟩ := kv
    by_cases h : k' = k
    · simpa [eraseA, List.filter_cons, h] using ih
    · simpa [eraseA, List.filter_cons, bne_iff_ne, h, lookupA] using ih

theorem mem_keysA_insertA {α : Type} {l : List (String × α)} {k k' : String} {v : α}
    (h : k' ∈ keysA (insertA l k v)) : k' = k ∨ k' ∈ keysA l := by
  induction l with
  | nil => simpa [insertA, keysA] using h
  | cons kv rest ih =>
    obtain ⟨k₀, w⟩ := kv
    by_cases hk : k₀ = k
    · simp [insertA, hk, keysA] at h
      rcases h with h | h
      · exact Or.inl h
      · exact Or.inr (by simp [keysA, h])
    · simp [insertA, hk, keysA] at h
      rcases h with h | h
      · exact Or.inr (by simp [keysA, h])
      · rcases ih (by simpa [keysA] using h) with h' | h'
        · exact Or.inl h'
        · exact Or.inr (by simp [keysA] at h' ⊢; exact Or.inr h')

theorem mem_keysA_eraseA {α : Type} {l : List (String × α)} {k k' : String}
    (h : k' ∈ keysA (eraseA l k)) : k' ∈ keysA l := by
  simp only [keysA, eraseA, List.mem_map] at h ⊢
  obtain ⟨kv, hmem, rfl⟩ := h
  exact ⟨kv, List.mem_of_mem_filter hmem, rfl⟩

theorem isDigitsOnly_sanitizeNumber (s : String) :
    isDigitsOnly (sanitizeNumber s) = true := by
  simp only [isDigitsOnly, sanitizeNumber, List.all_eq_true]
  intro c hc
  exact (List.mem_filter.mp hc).2

/-! ## Preservation of the digits-only key invariant -/

theorem digitKeys_nil {α : Type} : digitKeys ([] : List (String × α)) := by
  intro k hk
  simp [keysA] at hk

theorem digitKeys_insertA {α : Type} {l : List (String × α)} {k : String} {v : α}
    (hl : digitKeys l) (hk : isDigitsOnly k = true) : digitKeys (insertA l k v) := by
  intro k' hk'
  rcases mem_keysA_insertA hk' with rfl | h
  · exact hk
  · exact hl _ h

theorem digitKeys_eraseA {α : Type} {l : List (String × α)} {k : String}
    (hl : digitKeys l) : digitKeys (eraseA l k) :=
  fun _ h => hl _ (mem_keysA_eraseA h)

theorem regInvariant_applyRegOp (st : SysState) (op : RegOp) (h : regInvariant st) :
    regInvariant (applyRegOp st op) := by
  obtain ⟨h1, h2⟩ := h
  cases op with
  | empirePairStart number t =>
    exact ⟨h1, digitKeys_insertA h2 (isDigitsOnly_sanitizeNumber number)⟩
  | connectionOpenOp number sock =>
    have hrw : applyRegOp st (RegOp.connectionOpenOp number sock) =
        { st with activeSockets := insertA st.activeSockets (sanitizeNumber number) sock } := by
      simp [applyRegOp, onConnectionOpen]
    rw [hrw]
    exact ⟨digitKeys_insertA h1 (isDigitsOnly_sanitizeNumber number), h2⟩
  | connectionCloseOp number code =>
    by_cases hc : code = some 401 <;>
      · simp only [applyRegOp, onConnectionClose, hc, if_pos, if_neg, reduceIte]
        exact ⟨digitKeys_eraseA h1, digitKeys_eraseA h2⟩
  | empirePairCatch number =>
    exact ⟨h1, digitKeys_eraseA h2⟩
  | deleteMeCommand number =>
    by_cases hs : (lookupA st.activeSockets (sanitizeNumber number)).isSome
    · simp only [applyRegOp, hs, if_pos, reduceIte]
      exact ⟨digitKeys_eraseA h1, digitKeys_eraseA h2⟩
    · simp only [applyRegOp, hs, if_neg, reduceIte]
      exact ⟨h1, h2⟩
  | processExit =>
    exact ⟨digitKeys_nil, digitKeys_nil⟩

theorem regInvariant_applyRegOps (ops : List RegOp) :
    regInvariant (applyRegOps SysState.init ops) := by
  have key : ∀ st, regInvariant st → regInvariant (applyRegOps st ops) := by
    induction ops with
    | nil => intro st h; exact h
    | cons op rest ih =>
      intro st h
      exact ih _ (regInvariant_applyRegOp st op h)
  exact key _ ⟨digitKeys_nil, digitKeys_nil⟩

/-! ## Claim theorems -/

/-- Claim C1: a connection-close whose reason is the permanent unauthorized
condition (status code 401) deletes the persisted session record, removes
the registry entries for the number, and never re-invokes pair for that
close; a close with any other reason always re-invokes pair for the number
after the fixed 10-second cooldown. -/
theorem close_handler_unauthorized_vs_transient (st : SysState) (number : String)
    (code : Option Nat) :
    (code = some 401 →
      lookupA (onConnectionClose st number code).1.sessions (sanitizeNumber number) = none ∧
      lookupA (onConnectionClose st number code).1.activeSockets (sanitizeNumber number) = none ∧
      lookupA (onConnectionClose st number code).1.socketCreationTime (sanitizeNumber number)
        = none ∧
      ∀ m, Effect.invokePair m ∉ (onConnectionClose st number code).2) ∧
    (code ≠ some 401 →
      (onConnectionClose st number code).2 =
        [Effect.waitMs 10000, Effect.removeActiveSocket (sanitizeNumber number),
         Effect.removeCreationTime (sanitizeNumber number), Effect.invokePair number]) := by
  constructor
  · intro h
    subst h
    refine ⟨?_, ?_, ?_, ?_⟩
    · simp [onConnectionClose, deleteSessionFromStorage, lookupA_eraseA_self]
    · simp [onConnectionClose, lookupA_eraseA_self]
    · simp [onConnectionClose, lookupA_eraseA_self]
    · intro m
      simp [onConnectionClose]
  · intro h
    simp [onConnectionClose, h]

/-- Witness for C1: both branches evaluated at concrete inputs. -/
theorem close_handler_unauthorized_vs_transient_witness :
    (lookupA (onConnectionClose SysState.init "12" (some 401)).1.sessions "12" = none ∧
     lookupA (onConnectionClose SysState.init "12" (some 401)).1.activeSockets "12" = none ∧
     lookupA (onConnectionClose SysState.init "12" (some 401)).1.socketCreationTime "12"
       = none ∧
     ∀ m, Effect.invokePair m ∉ (onConnectionClose SysState.init "12" (some 401)).2) ∧
    (onConnectionClose SysState.init "12" (some 428)).2 =
      [Effect.waitMs 10000, Effect.removeActiveSocket "12",
       Effect.removeCreationTime "12", Effect.invokePair "12"] := by
  have e : sanitizeNumber "12" = "12" := by decide
  constructor
  · have h := (close_handler_unauthorized_vs_transient SysState.init "12" (some 401)).1 rfl
    rw [e] at h
    exact h
  · have h := (close_handler_unauthorized_vs_transient SysState.init "12" (some 428)).2
      (by decide)
    rw [e] at h
    exact h

/-- Claim C2: the pairing endpoint, called while the registry already holds
the number, answers the already-connected result, hands nothing to
`EmpirePair`, performs no effects, and leaves the whole state unchanged. -/
theorem pair_route_already_connected (st : SysState) (n : String) (hne : n ≠ "")
    (h : (lookupA st.activeSockets (sanitizeNumber n)).isSome = true) :
    pairRoute st (some n) = (PairRouteResult.alreadyConnected, st, []) := by
  simp [pairRoute, hne, h]

/-- Witness for C2 at a concrete registry state. -/
theorem pair_route_already_connected_witness :
    pairRoute ⟨[], [("1234", 7)], [("1234", 0)], []⟩ (some "1234") =
      (PairRouteResult.alreadyConnected, ⟨[], [("1234", 7)], [("1234", 0)], []⟩, []) :=
  pair_route_already_connected ⟨[], [("1234", 7)], [("1234", 0)], []⟩ "1234"
    (by decide) (by decide)

/-- Claim C5: in the connection-open handler, the registry registration
happens strictly before the welcome send and before the admin notification
sends, and the number stays registered (with its handle) even when those
sends fail. -/
theorem open_handler_registers_before_sends (st : SysState) (n : String) (sock : Nat)
    (wf af : Bool) :
    lookupA (onConnectionOpen st n sock wf af).1.activeSockets n = some sock ∧
    ∃ pre post, (onConnectionOpen st n sock wf af).2 = pre ++ OpenEvent.registrySet :: post ∧
      OpenEvent.welcomeSend ∉ pre ∧ OpenEvent.adminSend ∉ pre ∧
      OpenEvent.welcomeSend ∈ post := by
  cases wf <;> cases af
  case false.false =>
    exact ⟨by simp [onConnectionOpen, lookupA_insertA_self],
      [OpenEvent.settleDelay, OpenEvent.joinGroupStep, OpenEvent.newsletterStep,
       OpenEvent.loadConfigStep],
      [OpenEvent.welcomeSend, OpenEvent.adminSend, OpenEvent.numbersAppend],
      by simp [onConnectionOpen], by simp, by simp, by simp⟩
  case false.true =>
    exact ⟨by simp [onConnectionOpen, lookupA_insertA_self],
      [OpenEvent.settleDelay, OpenEvent.joinGroupStep, OpenEvent.newsletterStep,
       OpenEvent.loadConfigStep],
      [OpenEvent.welcomeSend, OpenEvent.adminSend, OpenEvent.numbersAppend],
      by simp [onConnectionOpen], by simp, by simp, by simp⟩
  case true.false =>
    exact ⟨by simp [onConnectionOpen, lookupA_insertA_self],
      [OpenEvent.settleDelay, OpenEvent.joinGroupStep, OpenEvent.newsletterStep,
       OpenEvent.loadConfigStep],
      [OpenEvent.welcomeSend, OpenEvent.pm2Restart],
      by simp [onConnectionOpen], by simp, by simp, by simp⟩
  case true.true =>
    exact ⟨by simp [onConnectionOpen, lookupA_insertA_self],
      [OpenEvent.settleDelay, OpenEvent.joinGroupStep, OpenEvent.newsletterStep,
       OpenEvent.loadConfigStep],
      [OpenEvent.welcomeSend, OpenEvent.pm2Restart],
      by simp [onConnectionOpen], by simp, by simp, by simp⟩

/-- Claim C6 as stated is false of the code: on a transient close the
handler waits the 10-second cooldown *before* removing the registry entry
(pair.js:3424-3426), so the removal does not precede the wait.  Concrete
input: number "12" with a live registry entry, close status 428. -/
theorem transient_close_order_counterexample :
    ¬ ((onConnectionClose ⟨[], [("12", 7)], [("12", 0)], []⟩ "12" (some 428)).2.indexOf
         (Effect.removeActiveSocket "12") <
       (onConnectionClose ⟨[], [("12", 7)], [("12", 0)], []⟩ "12" (some 428)).2.indexOf
         (Effect.waitMs 10000)) := by decide

/-- Claim C6 amended: on a transient (non-401) close, the fixed 10-second
cooldown elapses first, then the registry entries are removed, then pair is
re-invoked — in that order — and after the handler the registry no longer
holds the number. -/
theorem transient_close_wait_then_remove_then_pair (st : SysState) (number : String)
    (code : Option Nat) (h : code ≠ some 401) :
    (onConnectionClose st number code).2 =
      [Effect.waitMs 10000, Effect.removeActiveSocket (sanitizeNumber number),
       Effect.removeCreationTime (sanitizeNumber number), Effect.invokePair number] ∧
    lookupA (onConnectionClose st number code).1.activeSockets (sanitizeNumber number) = none ∧
    lookupA (onConnectionClose st number code).1.socketCreationTime (sanitizeNumber number)
      = none := by
  refine ⟨?_, ?_, ?_⟩ <;> simp [onConnectionClose, h, lookupA_eraseA_self]

/-- Witness for the amended C6 at a concrete input. -/
theorem transient_close_wait_then_remove_then_pair_witness :
    (onConnectionClose ⟨[], [("12", 7)], [("12", 0)], []⟩ "12" none).2 =
      [Effect.waitMs 10000, Effect.removeActiveSocket "12",
       Effect.removeCreationTime "12", Effect.invokePair "12"] ∧
    lookupA (onConnectionClose ⟨[], [("12", 7)], [("12", 0)], []⟩ "12" none).1.activeSockets
      "12" = none ∧
    lookupA (onConnectionClose ⟨[], [("12", 7)], [("12", 0)], []⟩ "12"
      none).1.socketCreationTime "12" = none := by
  have e : sanitizeNumber "12" = "12" := by decide
  have h := transient_close_wait_then_remove_then_pair
    ⟨[], [("12", 7)], [("12", 0)], []⟩ "12" none (by decide)
  rw [e] at h
  exact h

theorem requestPairingCodeLoop_all_fail (outcome : Nat → Option String)
    (h : ∀ i, outcome i = none) :
    ∀ retries attempts : Nat,
      requestPairingCodeLoop outcome retries attempts = (none, attempts + retries) := by
  intro retries
  induction retries with
  | zero => intro attempts; simp [requestPairingCodeLoop]
  | succ r ih =>
    intro attempts
    have step := ih (attempts + 1)
    simp only [requestPairingCodeLoop, h attempts, step]
    congr 1
    omega

/-- Claim C3: when every pairing-code request attempt fails, the retry loop
of `EmpirePair` performs exactly `MAX_RETRIES` attempts (default 3) — no
more, no fewer — and surfaces no code. -/
theorem pairing_code_retry_ceiling (outcome : Nat → Option String)
    (h : ∀ i, outcome i = none) :
    requestPairingCodeLoop outcome MAX_RETRIES 0 = (none, MAX_RETRIES) ∧
    MAX_RETRIES = 3 := by
  refine ⟨?_, rfl⟩
  simpa using requestPairingCodeLoop_all_fail outcome h MAX_RETRIES 0

/-- Witness for C3: the all-failing attempt sequence. -/
theorem pairing_code_retry_ceiling_witness :
    requestPairingCodeLoop (fun _ => none) MAX_RETRIES 0 = (none, MAX_RETRIES) ∧
    MAX_RETRIES = 3 :=
  pairing_code_retry_ceiling (fun _ => none) (fun _ => rfl)

/-- Claim C4 as stated is false of the code: when every pairing-code request
attempt fails and the bound response is attached and unsent, `EmpirePair`
reaches `if (!res.headersSent) res.send({ code })` (pair.js:3484-3486) with
`code` still undefined, so the response receives a success-shaped body with
no code — not the 503 of the outer catch (pair.js:3571-3575), which is only
reached when an exception escapes the socket setup. -/
theorem retry_exhaustion_response_counterexample :
    empirePairInitialResponse false (fun _ => none) false = HttpSent.sentBody none ∧
    HttpSent.sentBody none ≠ HttpSent.sent503 := by
  constructor
  · decide
  · decide

/-- Claim C4 amended: if all `MAX_RETRIES` pairing-code request attempts
fail during pair(number), the bound HTTP response (attached and not yet
sent) receives `res.send` of a body whose `code` is undefined — a
success-shaped response, not a 503-equivalent error. -/
theorem retry_exhaustion_sends_undefined_code (outcome : Nat → Option String)
    (h : ∀ i, outcome i = none) :
    empirePairInitialResponse false outcome false = HttpSent.sentBody none := by
  simp [empirePairInitialResponse, requestPairingCodeLoop_all_fail outcome h]

/-- Witness for the amended C4. -/
theorem retry_exhaustion_sends_undefined_code_witness :
    empirePairInitialResponse false (fun _ => none) false = HttpSent.sentBody none :=
  retry_exhaustion_sends_undefined_code (fun _ => none) (fun _ => rfl)

/-- Claim C7 as stated is false of the code: a verify-otp request that finds
the pending record but supplies a mismatched code answers "Invalid OTP" and
leaves the record in the store (pair.js:3727-3729 has no
`otpStore.delete`). -/
theorem verify_otp_mismatch_counterexample :
    (verifyOtpRoute ⟨[], [], [], [("12", ⟨"111111", 100, ConfigVal.cdoc []⟩)]⟩ 0
        (some "12") (some "000000")).1 = VerifyOtpResult.invalidOtp ∧
    lookupA (verifyOtpRoute ⟨[], [], [], [("12", ⟨"111111", 100, ConfigVal.cdoc []⟩)]⟩ 0
        (some "12") (some "000000")).2.otpStore "12" =
      some ⟨"111111", 100, ConfigVal.cdoc []⟩ := by
  constructor
  · decide
  · decide

/-- Claim C7 amended: a verify-otp request that finds the pending record
deletes it on expiry and on successful match (so a repeat of a successful
call fails with "no request found"), but on a code mismatch it leaves the
record and the whole state unchanged. -/
theorem verify_otp_consumption (st : SysState) (now : Nat) (n o : String) (r : OtpRecord)
    (hn : n ≠ "") (ho : o ≠ "")
    (hfound : lookupA st.otpStore (sanitizeNumber n) = some r) :
    (r.expiry ≤ now →
      (verifyOtpRoute st now (some n) (some o)).1 = VerifyOtpResult.expired ∧
      lookupA (verifyOtpRoute st now (some n) (some o)).2.otpStore (sanitizeNumber n)
        = none) ∧
    (¬ r.expiry ≤ now → r.otp = o →
      (verifyOtpRoute st now (some n) (some o)).1 = VerifyOtpResult.success ∧
      lookupA (verifyOtpRoute st now (some n) (some o)).2.otpStore (sanitizeNumber n)
        = none ∧
      (verifyOtpRoute (verifyOtpRoute st now (some n) (some o)).2 now
        (some n) (some o)).1 = VerifyOtpResult.noRequestFound) ∧
    (¬ r.expiry ≤ now → r.otp ≠ o →
      (verifyOtpRoute st now (some n) (some o)).1 = VerifyOtpResult.invalidOtp ∧
      (verifyOtpRoute st now (some n) (some o)).2 = st) := by
  refine ⟨?_, ?_, ?_⟩
  · intro hexp
    constructor
    · simp [verifyOtpRoute, hn, ho, hfound, hexp]
    · simp [verifyOtpRoute, hn, ho, hfound, hexp, lookupA_eraseA_self]
  · intro hexp hmatch
    refine ⟨?_, ?_, ?_⟩
    · simp [verifyOtpRoute, hn, ho, hfound, hexp, hmatch]
    · simp [verifyOtpRoute, hn, ho, hfound, hexp, hmatch, lookupA_eraseA_self]
    · simp [verifyOtpRoute, hn, ho, hfound, hexp, hmatch, lookupA_eraseA_self]
  · intro hexp hmis
    constructor
    · simp [verifyOtpRoute, hn, ho, hfound, hexp, hmis]
    · simp [verifyOtpRoute, hn, ho, hfound, hexp, hmis]

/-- Witness for the amended C7: the successful-match branch at a concrete
store, including the failing second call. -/
theorem verify_otp_consumption_witness :
    (verifyOtpRoute ⟨[], [], [], [("12", ⟨"654321", 100, ConfigVal.cdoc []⟩)]⟩ 0
        (some "12") (some "654321")).1 = VerifyOtpResult.success ∧
    lookupA (verifyOtpRoute ⟨[], [], [], [("12", ⟨"654321", 100, ConfigVal.cdoc []⟩)]⟩ 0
        (some "12") (some "654321")).2.otpStore (sanitizeNumber "12") = none ∧
    (verifyOtpRoute (verifyOtpRoute ⟨[], [], [], [("12", ⟨"654321", 100,
        ConfigVal.cdoc []⟩)]⟩ 0 (some "12") (some "654321")).2 0
      (some "12") (some "654321")).1 = VerifyOtpResult.noRequestFound := by
  have H := verify_otp_consumption ⟨[], [], [], [("12", ⟨"654321", 100, ConfigVal.cdoc []⟩)]⟩
    0 "12" "654321" ⟨"654321", 100, ConfigVal.cdoc []⟩ (by decide) (by decide) (by decide)
  exact H.2.1 (by decide) rfl

/-- Claim C8: `updateUserConfig(N, C)` followed by `loadUserConfig(N)`
returns exactly the configuration document C (the timestamps live on the
session document, not in C), and `loadUserConfig` for a never-configured N
returns the process-wide default configuration, not an error. -/
theorem config_roundtrip (sessions : List (String × SessionRecord)) (n : String)
    (fields : List (String × String)) (now : Nat) :
    loadUserConfig (updateUserConfig sessions n (ConfigVal.cdoc fields) now) n =
      ConfigVal.cdoc fields ∧
    (lookupA sessions n = none → loadUserConfig sessions n = defaultConfigDoc) := by
  constructor
  · unfold updateUserConfig
    cases h : lookupA sessions n with
    | none => simp [loadUserConfig, lookupA_insertA_self, ConfigVal.truthy]
    | some s => simp [loadUserConfig, lookupA_insertA_self, ConfigVal.truthy]
  · intro h
    simp [loadUserConfig, h]

/-- Witness for C8 at a concrete store and document. -/
theorem config_roundtrip_witness :
    loadUserConfig (updateUserConfig [] "12" (ConfigVal.cdoc [("A", "1")]) 5) "12" =
      ConfigVal.cdoc [("A", "1")] ∧
    loadUserConfig [] "12" = defaultConfigDoc := by
  have H := config_roundtrip [] "12" [("A", "1")] 5
  exact ⟨H.1, H.2 rfl⟩

/-- Claim C9: every key ever present in `activeSockets` and
`socketCreationTime` is a digits-only string — every operation sequence from
the initial state preserves this, because every inserting or deleting site
first strips non-digit characters — and numbers with the same digits (e.g.
spellings with '+' or spaces) act on the same registry entry. -/
theorem registry_keys_digits_only :
    (∀ (ops : List RegOp) (k : String),
      k ∈ keysA (applyRegOps SysState.init ops).activeSockets ∨
      k ∈ keysA (applyRegOps SysState.init ops).socketCreationTime →
      isDigitsOnly k = true) ∧
    (∀ n₁ n₂ : String, sanitizeNumber n₁ = sanitizeNumber n₂ →
      ∀ (st : SysState) (sock : Nat),
        applyRegOp st (RegOp.connectionOpenOp n₁ sock) =
        applyRegOp st (RegOp.connectionOpenOp n₂ sock)) := by
  constructor
  · intro ops k hk
    rcases hk with h | h
    · exact (regInvariant_applyRegOps ops).1 k h
    · exact (regInvariant_applyRegOps ops).2 k h
  · intro n₁ n₂ h st sock
    simp [applyRegOp, h]

/-- Witness for C9: a spelling with '+', space and '-' yields the digits-only
key "1234", and acts on the registry exactly as the plain spelling. -/
theorem registry_keys_digits_only_witness :
    isDigitsOnly "1234" = true ∧
    applyRegOp SysState.init (RegOp.connectionOpenOp "+1 2-3 4" 7) =
      applyRegOp SysState.init (RegOp.connectionOpenOp "1234" 7) := by
  constructor
  · exact registry_keys_digits_only.1 [RegOp.connectionOpenOp "+1 2-3 4" 7] "1234"
      (Or.inl (by decide))
  · exact registry_keys_digits_only.2 "+1 2-3 4" "1234" (by decide) SysState.init 7

theorem toDigitsCore_length_lower :
    ∀ (f e n : ℕ) (l : List Char), 10 ^ e ≤ n → e < f →
      e + 1 + l.length ≤ (Nat.toDigitsCore 10 f n l).length := by
  intro f
  induction f with
  | zero => intro e n l _ hef; omega
  | succ f ih =>
    intro e n l hle hef
    by_cases hdiv : n / 10 = 0
    · have hn : n < 10 := by omega
      have he : e = 0 := by
        by_contra h0
        have h10 : (10 : ℕ) ≤ 10 ^ e := by
          calc (10 : ℕ) = 10 ^ 1 := by norm_num
          _ ≤ 10 ^ e := Nat.pow_le_pow_right (by norm_num) (by omega)
        omega
      subst he
      simp only [Nat.toDigitsCore, hdiv, if_pos, List.length_cons]
      omega
    · cases e with
      | zero =>
        cases f with
        | zero =>
          simp only [Nat.toDigitsCore, hdiv, if_false, List.length_cons, reduceIte]
          omega
        | succ f' =>
          have h1 : 10 ^ 0 ≤ n / 10 := by
            have := Nat.pos_of_ne_zero hdiv
            simpa using this
          have step := ih 0 (n / 10) (Nat.digitChar (n % 10) :: l) h1 (by omega)
          simp only [Nat.toDigitsCore, hdiv, if_false, List.length_cons] at step ⊢
          omega
      | succ e' =>
        have h1 : 10 ^ e' ≤ n / 10 := by
          rw [Nat.le_div_iff_mul_le (by norm_num)]
          calc 10 ^ e' * 10 = 10 ^ (e' + 1) := by ring
          _ ≤ n := hle
        have step := ih e' (n / 10) (Nat.digitChar (n % 10) :: l) h1 (by omega)
        simp only [Nat.toDigitsCore, hdiv, if_false, List.length_cons] at step ⊢
        omega

theorem repr_length_six (n : ℕ) (h1 : 100000 ≤ n) (h2 : n ≤ 999999) :
    (Nat.repr n).length = 6 := by
  have upper : (Nat.repr n).length ≤ 6 :=
    Nat.repr_length n 6 (by norm_num) (by omega)
  have lower : 5 + 1 + ([] : List Char).length ≤ (Nat.toDigitsCore 10 (n + 1) n []).length :=
    toDigitsCore_length_lower (n + 1) 5 n [] (by norm_num; omega) (by omega)
  have hrepr : (Nat.repr n).length = (Nat.toDigitsCore 10 (n + 1) n []).length := by
    simp [Nat.repr, Nat.toDigits, List.length_asString]
  simp only [List.length_nil] at lower
  omega

/-- Claim C10: for every random draw r with 0 ≤ r < 1, `generateOTP` returns
the decimal representation of an integer in the range 100000..999999, a
string of exactly 6 characters (all decimal digits). -/
theorem generateOTP_six_digits (r : ℚ) (h0 : 0 ≤ r) (h1 : r < 1) :
    ∃ n : ℕ, generateOTP r = Nat.repr n ∧ 100000 ≤ n ∧ n ≤ 999999 ∧
      (generateOTP r).length = 6 := by
  have hge : (100000 : ℤ) ≤ ⌊(100000 : ℚ) + r * 900000⌋ := by
    apply Int.le_floor.mpr
    push_cast
    nlinarith
  have hlt : ⌊(100000 : ℚ) + r * 900000⌋ < 1000000 := by
    apply Int.floor_lt.mpr
    push_cast
    nlinarith
  refine ⟨(⌊(100000 : ℚ) + r * 900000⌋).toNat, rfl, by omega, by omega, ?_⟩
  show (Nat.repr (⌊(100000 : ℚ) + r * 900000⌋).toNat).length = 6
  exact repr_length_six _ (by omega) (by omega)

/-- Witness for C10 at the draw r = 0. -/
theorem generateOTP_six_digits_witness :
    ∃ n : ℕ, generateOTP 0 = Nat.repr n ∧ 100000 ≤ n ∧ n ≤ 999999 ∧
      (generateOTP 0).length = 6 :=
  generateOTP_six_digits 0 (le_refl 0) (by norm_num)

end Minibot
